import Mathlib

/-!
Shallow embedding of the request/payment orchestration core of the musix-bot
repository: the per-user rate limiter (`src/utils/rateLimiter.ts`), the FIFO
task queue (`QueueManager`), the payment lifecycle state machine
(`src/services/payment.ts`), the in-memory request store
(`src/services/storage.ts`) and the checkpoint/recovery system
(`RecoverySystem`).  Timestamps are integer milliseconds, currency amounts and
chain balances are rationals, and the JavaScript `Map` objects are embedded as
insertion-ordered association lists with JavaScript `Map.set` semantics
(an existing key keeps its position, a new key is appended at the tail).
-/

namespace MusixBot

/-- Insertion-ordered association list lookup: first entry with the key,
mirroring JavaScript `Map.get`. -/
def jsGet {α : Type} (l : List (String × α)) (k : String) : Option α :=
  match l with
  | [] => none
  | (k', v) :: rest => if k' = k then some v else jsGet rest k

/-- JavaScript `Map.set`: replace the value in place when the key exists,
append at the tail otherwise. -/
def jsSet {α : Type} (l : List (String × α)) (k : String) (v : α) : List (String × α) :=
  match l with
  | [] => [(k, v)]
  | (k', v') :: rest => if k' = k then (k, v) :: rest else (k', v') :: jsSet rest k v

/-- JavaScript `Map.delete`: remove the (unique) entry with the key. -/
def jsDelete {α : Type} (l : List (String × α)) (k : String) : List (String × α) :=
  match l with
  | [] => []
  | (k', v') :: rest => if k' = k then rest else (k', v') :: jsDelete rest k

theorem jsGet_jsSet_self {α : Type} (l : List (String × α)) (k : String) (v : α) :
    jsGet (jsSet l k v) k = some v := by
  induction l with
  | nil => simp [jsGet, jsSet]
  | cons hd tl ih =>
    obtain ⟨k', v'⟩ := hd
    by_cases h : k' = k <;> simp [jsGet, jsSet, h, ih]

theorem jsGet_jsSet_ne {α : Type} (l : List (String × α)) (k k' : String) (v : α)
    (h : k ≠ k') : jsGet (jsSet l k v) k' = jsGet l k' := by
  induction l with
  | nil => simp [jsGet, jsSet, h]
  | cons hd tl ih =>
    obtain ⟨k₀, v₀⟩ := hd
    by_cases h₀ : k₀ = k
    · subst h₀; simp [jsGet, jsSet, h]
    · simp only [jsSet, if_neg h₀, jsGet]
      by_cases h₁ : k₀ = k' <;> simp [h₁, ih]

/-! ## RateLimiter (`src/utils/rateLimiter.ts`) -/

/-- The `RateLimit` record of `rateLimiter.ts`: request count and window
reset time. -/
structure RateLimit where
  count : Nat
  resetTime : Int
  deriving Repr, DecidableEq

/-- The mutable state of a `RateLimiter` instance: the `limits` map and the
configured `maxRequestsPerHour` ceiling. -/
structure RateLimiterState where
  maxRequestsPerHour : Nat
  limits : List (String × RateLimit)
  deriving Repr, DecidableEq

/-- One hour in milliseconds, as written `60 * 60 * 1000` in the source. -/
def oneHourMs : Int := 60 * 60 * 1000

/-- `RateLimiter.checkLimit(userId)` at current time `now`: returns the
boolean verdict and the updated state.  Mirrors the source: a missing window
or one with `now > resetTime` is replaced by a fresh `{count = 1,
resetTime = now + 1h}` window and the call is allowed; otherwise a window at
or above the ceiling denies the call without mutation, and a window below the
ceiling is incremented and the call is allowed. -/
def checkLimit (s : RateLimiterState) (now : Int) (userId : String) :
    Bool × RateLimiterState :=
  match jsGet s.limits userId with
  | none =>
      (true, { s with limits := jsSet s.limits userId ⟨1, now + oneHourMs⟩ })
  | some userLimit =>
      if now > userLimit.resetTime then
        (true, { s with limits := jsSet s.limits userId ⟨1, now + oneHourMs⟩ })
      else if userLimit.count ≥ s.maxRequestsPerHour then
        (false, s)
      else
        (true, { s with limits := jsSet s.limits userId ⟨userLimit.count + 1, userLimit.resetTime⟩ })

/-- A sequence of `checkLimit` calls for one identity at the given times,
returning the list of verdicts and the final state. -/
def checkLimitRun (userId : String) : List Int → RateLimiterState → List Bool × RateLimiterState
  | [], s => ([], s)
  | t :: ts, s =>
      let (b, s') := checkLimit s t userId
      let (bs, s'') := checkLimitRun userId ts s'
      (b :: bs, s'')

theorem checkLimitRun_from_window (u : String) (ts : List Int) :
    ∀ (s : RateLimiterState) (c : Nat) (r : Int),
    jsGet s.limits u = some ⟨c, r⟩ →
    (∀ t ∈ ts, ¬ t > r) →
    (checkLimitRun u ts s).1
      = List.replicate (min ts.length (s.maxRequestsPerHour - c)) true
        ++ List.replicate (ts.length - (s.maxRequestsPerHour - c)) false := by
  induction ts with
  | nil => intro s c r _ _; simp [checkLimitRun]
  | cons t ts ih =>
    intro s c r hget hts
    have hhd : ¬ t > r := hts t (by simp)
    by_cases hc : c ≥ s.maxRequestsPerHour
    · have hstep : checkLimit s t u = (false, s) := by
        simp [checkLimit, hget, hhd, hc]
      have htail := ih s c r hget (fun t' ht' => hts t' (by simp [ht']))
      have hz : s.maxRequestsPerHour - c = 0 := by omega
      simp only [checkLimitRun, hstep]
      simp [htail, hz, List.replicate_succ]
    · have hstep : checkLimit s t u
          = (true, { s with limits := jsSet s.limits u ⟨c + 1, r⟩ }) := by
        simp [checkLimit, hget, hhd, hc]
      have htail := ih { s with limits := jsSet s.limits u ⟨c + 1, r⟩ } (c + 1) r
        (by simpa using jsGet_jsSet_self s.limits u ⟨c + 1, r⟩)
        (fun t' ht' => hts t' (by simp [ht']))
      simp only [checkLimitRun, hstep]
      have hk : s.maxRequestsPerHour - c = (s.maxRequestsPerHour - (c + 1)) + 1 := by omega
      simp only [htail, hk]
      simp [Nat.succ_min_succ, List.replicate_succ]

theorem checkLimitRun_fresh (u : String) (t₀ : Int) (ts : List Int) (s : RateLimiterState)
    (h0 : jsGet s.limits u = none)
    (hm : 1 ≤ s.maxRequestsPerHour)
    (hts : ∀ t ∈ ts, ¬ t > t₀ + oneHourMs) :
    (checkLimitRun u (t₀ :: ts) s).1
      = List.replicate (min (ts.length + 1) s.maxRequestsPerHour) true
        ++ List.replicate (ts.length + 1 - s.maxRequestsPerHour) false := by
  have hstep : checkLimit s t₀ u
      = (true, { s with limits := jsSet s.limits u ⟨1, t₀ + oneHourMs⟩ }) := by
    simp [checkLimit, h0]
  have htail := checkLimitRun_from_window u ts
    { s with limits := jsSet s.limits u ⟨1, t₀ + oneHourMs⟩ } 1 (t₀ + oneHourMs)
    (by simpa using jsGet_jsSet_self s.limits u ⟨1, t₀ + oneHourMs⟩) hts
  simp only [checkLimitRun, hstep]
  have hk : s.maxRequestsPerHour = (s.maxRequestsPerHour - 1) + 1 := by omega
  rw [htail]
  rw [hk]
  simp [Nat.succ_min_succ, List.replicate_succ]

theorem replicate_append_getElem_true (a b i : Nat) (h : i < a) :
    (List.replicate a true ++ List.replicate b false)[i]? = some true := by
  rw [List.getElem?_append]
  simp [List.getElem?_replicate, h]

theorem replicate_append_getElem_false (a b i : Nat) (h1 : a ≤ i) (h2 : i < a + b) :
    (List.replicate a true ++ List.replicate b false)[i]? = some false := by
  rw [List.getElem?_append]
  have h3 : ¬ i < a := by omega
  simp [List.getElem?_replicate, h3]
  omega

/-- C4: within one rate window (current time not past `resetAt`) the
ceiling-th `checkLimit` call still returns true and the ceiling+1-th call
returns false; and every `checkLimit` call for an identity with no window, or
whose window's `resetAt` has passed, creates a fresh window with `count = 1`
and `resetAt = now + 1 hour` and returns true. -/
theorem checkLimit_ceiling_and_fresh_window :
    (∀ (s : RateLimiterState) (now : Int) (u : String),
      jsGet s.limits u = none →
        checkLimit s now u
          = (true, { s with limits := jsSet s.limits u ⟨1, now + oneHourMs⟩ })) ∧
    (∀ (s : RateLimiterState) (now : Int) (u : String) (w : RateLimit),
      jsGet s.limits u = some w → now > w.resetTime →
        checkLimit s now u
          = (true, { s with limits := jsSet s.limits u ⟨1, now + oneHourMs⟩ })) ∧
    (∀ (s : RateLimiterState) (u : String) (t₀ : Int) (ts : List Int),
      jsGet s.limits u = none →
      1 ≤ s.maxRequestsPerHour →
      s.maxRequestsPerHour ≤ ts.length →
      (∀ t ∈ ts, ¬ t > t₀ + oneHourMs) →
        (checkLimitRun u (t₀ :: ts) s).1[s.maxRequestsPerHour - 1]? = some true ∧
        (checkLimitRun u (t₀ :: ts) s).1[s.maxRequestsPerHour]? = some false) := by
  refine ⟨?_, ?_, ?_⟩
  · intro s now u h0
    simp [checkLimit, h0]
  · intro s now u w hw hnow
    simp [checkLimit, hw, hnow]
  · intro s u t₀ ts h0 hm hn hts
    rw [checkLimitRun_fresh u t₀ ts s h0 hm hts]
    have hmin : min (ts.length + 1) s.maxRequestsPerHour = s.maxRequestsPerHour := by omega
    rw [hmin]
    constructor
    · exact replicate_append_getElem_true _ _ _ (by omega)
    · exact replicate_append_getElem_false _ _ _ (by omega) (by omega)

theorem checkLimit_ceiling_and_fresh_window_witness :
    (checkLimit ⟨2, []⟩ 0 "u"
        = (true, ⟨2, [("u", ⟨1, (0 : Int) + oneHourMs⟩)]⟩)) ∧
    (checkLimit ⟨2, [("u", ⟨1, 5⟩)]⟩ 6 "u"
        = (true, ⟨2, [("u", ⟨1, (6 : Int) + oneHourMs⟩)]⟩)) ∧
    (checkLimitRun "u" [0, 1, 2] ⟨2, []⟩).1[1]? = some true ∧
    (checkLimitRun "u" [0, 1, 2] ⟨2, []⟩).1[2]? = some false := by
  refine ⟨?_, ?_, ?_⟩
  · exact checkLimit_ceiling_and_fresh_window.1 ⟨2, []⟩ 0 "u" rfl
  · exact checkLimit_ceiling_and_fresh_window.2.1 ⟨2, [("u", ⟨1, 5⟩)]⟩ 6 "u" ⟨1, 5⟩ rfl (by decide)
  · exact checkLimit_ceiling_and_fresh_window.2.2 ⟨2, []⟩ "u" 0 [1, 2] rfl (by decide)
      (by decide) (by decide)

/-! ## StorageService (`src/services/storage.ts`) -/

/-- Payment status of a `PaymentDetails` / stored payment:
`'pending' | 'completed' | 'failed'`. -/
inductive PaymentStatus where
  | pending
  | completed
  | failed
  deriving Repr, DecidableEq

/-- The four destination wallet addresses of a payment request. -/
structure WalletAddresses where
  btc : String
  eth : String
  sol : String
  usdt : String
  deriving Repr, DecidableEq

/-- The `payment` field embedded in a `StoredRequest` (`storage.ts`). -/
structure StoredPayment where
  orderId : String
  status : PaymentStatus
  amount : Rat
  walletAddresses : WalletAddresses
  deriving Repr, DecidableEq

/-- A `StoredRequest` record of `storage.ts`, keyed by `tweetId` (the
correlation id) in the `requests` map. -/
structure StoredRequest where
  tweetId : String
  userId : String
  prompt : String
  payment : StoredPayment
  timestamp : Int
  deriving Repr, DecidableEq

/-- The `SystemState` snapshot serialized by `RecoverySystem.saveCheckpoint`. -/
structure SystemState where
  timestamp : Int
  pendingRequests : List StoredRequest
  pendingPayments : List StoredPayment
  activeServices : List String
  deriving Repr, DecidableEq

/-- A value held by the durable key-value storage.  `numStr` is a numeric
string as written by the balance tracker, `ckpt` is the JSON serialization of
a `SystemState`, and `corrupt` stands for any other byte string (one that
fails to parse back into a snapshot). -/
inductive KVVal where
  | numStr (q : Rat)
  | ckpt (s : SystemState)
  | corrupt
  deriving Repr, DecidableEq

/-- The mutable state of a `StorageService` instance: the in-memory
`requests` map (insertion-ordered, keyed by tweetId) plus the durable
key-value capability used through `getValue`/`setValue`.  `kvFail` lists the
keys on which the durable capability currently raises a transport error
(spec-modelled: the durable store is external and may fail transiently). -/
structure StorageState where
  requests : List (String × StoredRequest)
  kv : List (String × KVVal)
  kvFail : List String
  deriving Repr, DecidableEq

/-- `StorageService.storeRequest`: inserts the request under its `tweetId`. -/
def storeRequest (r : StoredRequest) (s : StorageState) : StorageState :=
  { s with requests := jsSet s.requests r.tweetId r }

/-- The loop body of `StorageService.updatePaymentStatus`: walk the requests
in insertion order, set the payment status of the first request whose
`payment.orderId` matches, then `break`.  (The source mutates the stored
object in place and re-`set`s it under its own `tweetId`, which leaves the
entry at its position.) -/
def updateFirstPayment (orderId : String) (st : PaymentStatus) :
    List (String × StoredRequest) → List (String × StoredRequest)
  | [] => []
  | (k, r) :: rest =>
      if r.payment.orderId = orderId then
        (k, { r with payment := { r.payment with status := st } }) :: rest
      else
        (k, r) :: updateFirstPayment orderId st rest

/-- `StorageService.updatePaymentStatus(orderId, status)`. -/
def updatePaymentStatus (orderId : String) (st : PaymentStatus) (s : StorageState) :
    StorageState :=
  { s with requests := updateFirstPayment orderId st s.requests }

/-- Modelled from the spec: `StorageService.getValue` is called by
`PaymentService` and `RecoverySystem` but is not defined in the sources under
`src/`; the spec describes the durable-storage capability as
`get(key) -> bytes|absent` whose failure raises a transport error. -/
def getValueE (s : StorageState) (k : String) : Except String (Option KVVal) :=
  if k ∈ s.kvFail then Except.error "storage get failed"
  else Except.ok (jsGet s.kv k)

/-- Modelled from the spec: `StorageService.setValue` is called by
`PaymentService` and `RecoverySystem` but is not defined in the sources under
`src/`; the spec describes the durable-storage capability as
`set(key, bytes)` whose failure raises a transport error. -/
def setValueE (s : StorageState) (k : String) (v : KVVal) : Except String StorageState :=
  if k ∈ s.kvFail then Except.error "storage set failed"
  else Except.ok { s with kv := jsSet s.kv k v }

/-- Modelled from the spec: `StorageService.getPendingRequests` is called by
`RecoverySystem.saveCheckpoint` but is not defined in the sources under
`src/`; the spec says the checkpoint "snapshots all pending requests". -/
def getPendingRequests (s : StorageState) : List StoredRequest :=
  (s.requests.map (fun e => e.2)).filter (fun r => r.payment.status = PaymentStatus.pending)

/-- Modelled from the spec: `StorageService.getPendingPayments` is called by
`RecoverySystem.saveCheckpoint` but is not defined in the sources under
`src/`; the spec says the checkpoint "snapshots all pending requests and
pending payments" — the payments embedded in the pending requests. -/
def getPendingPayments (s : StorageState) : List StoredPayment :=
  (getPendingRequests s).map (fun r => r.payment)

/-! ## PaymentService (`src/services/payment.ts`) -/

/-- A `PaymentDetails` record of `payment.ts`. -/
structure PaymentDetails where
  orderId : String
  amount : Rat
  userId : String
  tweetId : String
  walletAddresses : WalletAddresses
  status : PaymentStatus
  timestamp : Int
  deriving Repr, DecidableEq

/-- A `PaymentError` record held in the `failedPayments` map. -/
structure PaymentError where
  orderId : String
  error : String
  attempts : Nat
  lastAttempt : Int
  deriving Repr, DecidableEq

/-- An Ethereum transaction as returned by `web3.eth.getTransaction`: the
recipient (`to`, possibly absent) and its value already converted to ether
by `fromWei`. -/
structure ChainTx where
  toAddr : Option String
  valueEther : Rat
  deriving Repr, DecidableEq

/-- The external chain-verification capability consumed by
`PaymentService`: transaction lookup by hash and address balance lookup
(balances in ether, `fromWei` applied). -/
structure ChainOracle where
  getTransaction : String → Option ChainTx
  getBalance : String → Rat

/-- The mutable state of a `PaymentService` instance. -/
structure PaymentState where
  payments : List (String × PaymentDetails)
  failedPayments : List (String × PaymentError)
  storage : StorageState

/-- `retryConfig.maxAttempts` (3). -/
def maxAttempts : Nat := 3

/-- `retryConfig.maxVerificationTime` (30 minutes in ms). -/
def maxVerificationTime : Int := 30 * 60 * 1000

/-- `getEtherPrice()`, hardcoded to 2000 in the source. -/
def etherPrice : Rat := 2000

/-- `String.prototype.toLowerCase`, as a character-wise map. -/
def toLower (s : String) : String := ⟨s.data.map Char.toLower⟩

/-- `PaymentService.hasPaymentExpired`. -/
def hasPaymentExpired (now : Int) (p : PaymentDetails) : Bool :=
  decide (now - p.timestamp > maxVerificationTime)

/-- `parseFloat(await getValue(...) || '0')`: an absent stored balance reads
as 0. -/
def parseBalance : Option KVVal → Rat
  | some (KVVal.numStr q) => q
  | _ => 0

/-- `PaymentService.verifyEthereumTransaction`: look the transaction up,
require the recipient to match the payment's eth wallet case-insensitively,
and accept when the transferred amount is within 5% relative tolerance of
`payment.amount / etherPrice`. -/
def verifyEthereumTransaction (oracle : ChainOracle) (txHash : String)
    (p : PaymentDetails) : Bool :=
  match oracle.getTransaction txHash with
  | none => false
  | some tx =>
      match tx.toAddr with
      | none => false
      | some dst =>
          if toLower dst ≠ toLower p.walletAddresses.eth then false
          else
            let amount := tx.valueEther
            let expectedAmount := p.amount / etherPrice
            decide (|amount - expectedAmount| / expectedAmount ≤ 5 / 100)

/-- `PaymentService.checkPaymentAddresses`: read the current balance of the
payment's eth wallet, compare with the last recorded balance (default 0),
record the current balance, and accept iff the balance strictly increased.
A transport failure of the durable store is caught locally and yields
`false` with no balance update. -/
def checkPaymentAddresses (oracle : ChainOracle) (p : PaymentDetails)
    (s : StorageState) : Bool × StorageState :=
  let key := "balance_" ++ p.walletAddresses.eth
  if key ∈ s.kvFail then (false, s)
  else
    let currentBalance := oracle.getBalance p.walletAddresses.eth
    let lastBalance := parseBalance (jsGet s.kv key)
    let s' := { s with kv := jsSet s.kv key (KVVal.numStr currentBalance) }
    (decide (currentBalance > lastBalance), s')

/-- The verification outcome chosen by `retryVerification`:
`txHash ? verifyEthereumTransaction(...) : checkPaymentAddresses(...)`. -/
def verificationOutcome (oracle : ChainOracle) (p : PaymentDetails)
    (txHash : Option String) (s : StorageState) : Bool × StorageState :=
  match txHash with
  | some h => (verifyEthereumTransaction oracle h p, s)
  | none => checkPaymentAddresses oracle p s

/-- `PaymentService.handleSuccessfulPayment`. -/
def handleSuccessfulPayment (p : PaymentDetails) (s : PaymentState) : PaymentState :=
  { s with
    payments := jsSet s.payments p.orderId { p with status := PaymentStatus.completed },
    failedPayments := jsDelete s.failedPayments p.orderId,
    storage := updatePaymentStatus p.orderId PaymentStatus.completed s.storage }

/-- `PaymentService.handleFailedVerification`: record (or increment) the
failure attempt counter for the order; the payment's status is not touched. -/
def handleFailedVerification (now : Int) (p : PaymentDetails) (s : PaymentState) :
    PaymentState :=
  let attempts :=
    match jsGet s.failedPayments p.orderId with
    | some fp => fp.attempts + 1
    | none => 1
  { s with
    failedPayments :=
      jsSet s.failedPayments p.orderId
        ⟨p.orderId, "Payment verification failed", attempts, now⟩ }

/-- `PaymentService.handleMaxRetriesExceeded`: mark the payment failed. -/
def handleMaxRetriesExceeded (p : PaymentDetails) (s : PaymentState) : PaymentState :=
  { s with
    payments := jsSet s.payments p.orderId { p with status := PaymentStatus.failed },
    storage := updatePaymentStatus p.orderId PaymentStatus.failed s.storage }

/-- `PaymentService.handleExpiredPayment`: mark the payment failed. -/
def handleExpiredPayment (p : PaymentDetails) (s : PaymentState) : PaymentState :=
  { s with
    payments := jsSet s.payments p.orderId { p with status := PaymentStatus.failed },
    storage := updatePaymentStatus p.orderId PaymentStatus.failed s.storage }

/-- `PaymentService.handlePaymentError`: record (or increment) the failure
attempt counter with the raised error's message. -/
def handlePaymentError (now : Int) (orderId : String) (msg : String)
    (s : PaymentState) : PaymentState :=
  let attempts :=
    match jsGet s.failedPayments orderId with
    | some fp => fp.attempts + 1
    | none => 1
  { s with
    failedPayments := jsSet s.failedPayments orderId ⟨orderId, msg, attempts, now⟩ }

/-- `PaymentService.retryVerification`: fail fast once the recorded attempts
reach `maxAttempts`; otherwise run the chain verification and dispatch to the
success or failure handler. -/
def retryVerification (now : Int) (oracle : ChainOracle) (p : PaymentDetails)
    (txHash : Option String) (s : PaymentState) : Bool × PaymentState :=
  let attempts :=
    match jsGet s.failedPayments p.orderId with
    | some fp => fp.attempts
    | none => 0
  if attempts ≥ maxAttempts then
    (false, handleMaxRetriesExceeded p s)
  else
    let (isValid, st') := verificationOutcome oracle p txHash s.storage
    let s' := { s with storage := st' }
    if isValid then (true, handleSuccessfulPayment p s')
    else (false, handleFailedVerification now p s')

/-- `PaymentService.verifyPayment(orderId, txHash?)`: the thrown
`Payment not found` error is caught by the function's own catch block, which
records it via `handlePaymentError` and returns false. -/
def verifyPayment (now : Int) (oracle : ChainOracle) (orderId : String)
    (txHash : Option String) (s : PaymentState) : Bool × PaymentState :=
  match jsGet s.payments orderId with
  | none =>
      (false, handlePaymentError now orderId ("Payment not found: " ++ orderId) s)
  | some p =>
      if hasPaymentExpired now p then (false, handleExpiredPayment p s)
      else retryVerification now oracle p txHash s

/-- `PaymentService.retryFailedPayment(orderId)`: requires a failure record;
resets its attempt counter to 0 and re-runs `verifyPayment` without a proof. -/
def retryFailedPayment (now : Int) (oracle : ChainOracle) (orderId : String)
    (s : PaymentState) : Bool × PaymentState :=
  match jsGet s.failedPayments orderId with
  | none => (false, s)
  | some fp =>
      let s' := { s with failedPayments := jsSet s.failedPayments orderId { fp with attempts := 0 } }
      verifyPayment now oracle orderId none s'

/-- `PaymentService.createPaymentRequest`. -/
def createPaymentRequest (now : Int) (userId tweetId : String)
    (wallets : WalletAddresses) (s : PaymentState) : PaymentDetails × PaymentState :=
  let orderId := "PAY-" ++ toString now ++ "-" ++ userId.takeRight 4
  let payment : PaymentDetails :=
    ⟨orderId, 10, userId, tweetId, wallets, PaymentStatus.pending, now⟩
  (payment, { s with payments := jsSet s.payments orderId payment })

/-- The recorded failure-attempt count for an order (0 when no record). -/
def attemptsOf (s : PaymentState) (orderId : String) : Nat :=
  match jsGet s.failedPayments orderId with
  | some fp => fp.attempts
  | none => 0

/-! ## Sample values used by concrete witnesses and counterexamples -/

/-- Sample wallet addresses. -/
def sampleWallets : WalletAddresses := ⟨"btcAddr", "0xABCDEF", "solAddr", "usdtAddr"⟩

/-- A sample pending payment created at time 0. -/
def samplePayment : PaymentDetails :=
  ⟨"PAY-1-user", 10, "user", "tw1", sampleWallets, PaymentStatus.pending, 0⟩

/-- A chain oracle that knows no transaction and reports balance 0
everywhere: every verification attempt comes back negative. -/
def oracleZero : ChainOracle := ⟨fun _ => none, fun _ => 0⟩

/-- A chain oracle that knows no transaction and reports balance 1 ether
everywhere. -/
def oracleOne : ChainOracle := ⟨fun _ => none, fun _ => 1⟩

/-- Empty storage. -/
def emptyStorage : StorageState := ⟨[], [], []⟩

/-- A ledger holding just the sample pending payment. -/
def singlePaymentState : PaymentState :=
  ⟨[("PAY-1-user", samplePayment)], [], emptyStorage⟩

/-- A ledger with no payments at all. -/
def cexEmptyState : PaymentState := ⟨[], [], emptyStorage⟩

/-- A ledger holding the sample payment already completed. -/
def cexCompletedState : PaymentState :=
  ⟨[("PAY-1-user", { samplePayment with status := PaymentStatus.completed })], [], emptyStorage⟩

/-! ## C2: expiry takes precedence and forces failed/false -/

/-- C2: for a payment request created at time `T` with
`maxVerificationTime = 1800000` ms, any `verifyPayment` call on its orderId
made when `now - T > 1800000` returns false and leaves the payment's status
equal to `failed`, regardless of the supplied proof and of the chain
oracle's answers; the expiry outcome is decided before the attempt-counting
verification logic (the conclusion holds for every failure-record state). -/
theorem verifyPayment_expired_fails (now : Int) (oracle : ChainOracle)
    (oid : String) (tx : Option String) (s : PaymentState) (p : PaymentDetails)
    (hp : jsGet s.payments oid = some p)
    (hoid : p.orderId = oid)
    (hexp : now - p.timestamp > maxVerificationTime) :
    (verifyPayment now oracle oid tx s).1 = false ∧
    jsGet (verifyPayment now oracle oid tx s).2.payments oid
      = some { p with status := PaymentStatus.failed } := by
  subst hoid
  have hb : hasPaymentExpired now p = true := by
    simp [hasPaymentExpired, hexp]
  simp [verifyPayment, hp, hb, handleExpiredPayment, jsGet_jsSet_self]

theorem verifyPayment_expired_fails_witness :
    (verifyPayment 1800001 oracleZero "PAY-1-user" (some "0xhash") singlePaymentState).1 = false ∧
    jsGet (verifyPayment 1800001 oracleZero "PAY-1-user" (some "0xhash") singlePaymentState).2.payments
        "PAY-1-user"
      = some { samplePayment with status := PaymentStatus.failed } :=
  verifyPayment_expired_fails 1800001 oracleZero "PAY-1-user" (some "0xhash")
    singlePaymentState samplePayment rfl rfl (by decide)

/-! ## C1: failure attempt counting -/

/-- Ledger state after one negative verification of the sample payment. -/
def cexAfterOneFailure : PaymentState :=
  (verifyPayment 1000 oracleZero "PAY-1-user" none singlePaymentState).2

/-- Ledger state after two negative verifications of the sample payment. -/
def cexAfterTwoFailures : PaymentState :=
  (verifyPayment 1001 oracleZero "PAY-1-user" none cexAfterOneFailure).2

/-- Ledger state after three negative verifications of the sample payment. -/
def cexAfterThreeFailures : PaymentState :=
  (verifyPayment 1002 oracleZero "PAY-1-user" none cexAfterTwoFailures).2

/-- C1 counterexample: after exactly three recorded verification failures
of a pending, unexpired payment, the failure counter is 3 but the payment's
status is still `pending`, not `failed` — the transition does not happen on
the third recorded failure. -/
theorem verifyPayment_third_failure_leaves_pending :
    attemptsOf cexAfterThreeFailures "PAY-1-user" = 3 ∧
    (jsGet cexAfterThreeFailures.payments "PAY-1-user").map (fun p => p.status)
      = some PaymentStatus.pending := by
  constructor <;> rfl

/-- C1 amended: on a negative verification result `verifyPayment` records a
failure attempt and leaves the status untouched, for the third recorded
failure exactly as for earlier ones; the transition to `failed` happens on
the next `verifyPayment` call after the recorded attempts have reached
`maxAttempts` (3), and that call fails fast without running verification
(its outcome does not depend on the oracle). -/
theorem verifyPayment_attempt_counting (now : Int) (oracle : ChainOracle)
    (oid : String) (tx : Option String) (s : PaymentState) (p : PaymentDetails)
    (hp : jsGet s.payments oid = some p)
    (hoid : p.orderId = oid)
    (hexp : hasPaymentExpired now p = false) :
    (attemptsOf s oid < maxAttempts →
      (verificationOutcome oracle p tx s.storage).1 = false →
        (verifyPayment now oracle oid tx s).1 = false ∧
        attemptsOf (verifyPayment now oracle oid tx s).2 oid = attemptsOf s oid + 1 ∧
        jsGet (verifyPayment now oracle oid tx s).2.payments oid = some p) ∧
    (attemptsOf s oid ≥ maxAttempts →
        (verifyPayment now oracle oid tx s).1 = false ∧
        jsGet (verifyPayment now oracle oid tx s).2.payments oid
          = some { p with status := PaymentStatus.failed } ∧
        attemptsOf (verifyPayment now oracle oid tx s).2 oid = attemptsOf s oid) := by
  subst hoid
  have hstep : verifyPayment now oracle p.orderId tx s = retryVerification now oracle p tx s := by
    simp [verifyPayment, hp, hexp]
  constructor
  · intro hlt hout
    have hge : ¬ (attemptsOf s p.orderId ≥ maxAttempts) := by omega
    rw [hstep]
    simp only [retryVerification]
    rw [show (match jsGet s.failedPayments p.orderId with
          | some fp => fp.attempts
          | none => 0) = attemptsOf s p.orderId from rfl]
    rw [if_neg hge]
    rcases hvo : verificationOutcome oracle p tx s.storage with ⟨b, st'⟩
    rw [hvo] at hout
    simp only at hout
    subst hout
    simp only [Bool.false_eq_true, if_false]
    refine ⟨by trivial, ?_, ?_⟩
    · simp only [handleFailedVerification, attemptsOf, jsGet_jsSet_self]
      cases hfp : jsGet s.failedPayments p.orderId <;> simp [hfp]
    · exact hp
  · intro hge
    rw [hstep]
    simp only [retryVerification]
    rw [show (match jsGet s.failedPayments p.orderId with
          | some fp => fp.attempts
          | none => 0) = attemptsOf s p.orderId from rfl]
    rw [if_pos hge]
    refine ⟨by trivial, ?_, by trivial⟩
    simp [handleMaxRetriesExceeded, jsGet_jsSet_self]

theorem verifyPayment_attempt_counting_witness :
    ((verifyPayment 1000 oracleZero "PAY-1-user" none singlePaymentState).1 = false ∧
      attemptsOf (verifyPayment 1000 oracleZero "PAY-1-user" none singlePaymentState).2
          "PAY-1-user" = attemptsOf singlePaymentState "PAY-1-user" + 1 ∧
      jsGet (verifyPayment 1000 oracleZero "PAY-1-user" none singlePaymentState).2.payments
          "PAY-1-user" = some samplePayment) ∧
    ((verifyPayment 1003 oracleZero "PAY-1-user" none cexAfterThreeFailures).1 = false ∧
      jsGet (verifyPayment 1003 oracleZero "PAY-1-user" none cexAfterThreeFailures).2.payments
          "PAY-1-user" = some { samplePayment with status := PaymentStatus.failed } ∧
      attemptsOf (verifyPayment 1003 oracleZero "PAY-1-user" none cexAfterThreeFailures).2
          "PAY-1-user" = attemptsOf cexAfterThreeFailures "PAY-1-user") := by
  constructor
  · exact (verifyPayment_attempt_counting 1000 oracleZero "PAY-1-user" none
      singlePaymentState samplePayment rfl rfl rfl).1 (by decide) rfl
  · exact (verifyPayment_attempt_counting 1003 oracleZero "PAY-1-user" none
      cexAfterThreeFailures samplePayment rfl rfl rfl).2 (by decide)

/-! ## C6: verifyPayment on an unknown orderId -/

/-- C6 counterexample: on a ledger with no payment at all, `verifyPayment`
for an unknown orderId completes with the ordinary boolean result `false`
(the internal `Payment not found` error is caught by the function's own
catch block) and the ledger state changes: a failure-attempt record for the
unknown orderId is inserted into the failed-payments map. -/
theorem verifyPayment_unknown_order_counterexample :
    (verifyPayment 0 oracleZero "X" none cexEmptyState).1 = false ∧
    (verifyPayment 0 oracleZero "X" none cexEmptyState).2.failedPayments
      = [("X", ⟨"X", "Payment not found: X", 1, 0⟩)] ∧
    (verifyPayment 0 oracleZero "X" none cexEmptyState).2.failedPayments
      ≠ cexEmptyState.failedPayments := by
  refine ⟨rfl, rfl, by decide⟩

/-- C6 amended: for an orderId with no payment request in the ledger,
`verifyPayment` returns false as an ordinary result (the internal NotFound
error is caught and recorded by `handlePaymentError`, not surfaced), leaves
the payments map and the storage unchanged, and increments the recorded
failure-attempt count for that orderId. -/
theorem verifyPayment_unknown_order (now : Int) (oracle : ChainOracle)
    (oid : String) (tx : Option String) (s : PaymentState)
    (hp : jsGet s.payments oid = none) :
    (verifyPayment now oracle oid tx s).1 = false ∧
    (verifyPayment now oracle oid tx s).2.payments = s.payments ∧
    (verifyPayment now oracle oid tx s).2.storage = s.storage ∧
    attemptsOf (verifyPayment now oracle oid tx s).2 oid = attemptsOf s oid + 1 := by
  simp only [verifyPayment, hp]
  refine ⟨by trivial, by trivial, by trivial, ?_⟩
  simp only [handlePaymentError, attemptsOf, jsGet_jsSet_self]
  cases hfp : jsGet s.failedPayments oid <;> simp [hfp]

theorem verifyPayment_unknown_order_witness :
    (verifyPayment 7 oracleZero "NOPE" (some "0xh") cexEmptyState).1 = false ∧
    (verifyPayment 7 oracleZero "NOPE" (some "0xh") cexEmptyState).2.payments
      = cexEmptyState.payments ∧
    (verifyPayment 7 oracleZero "NOPE" (some "0xh") cexEmptyState).2.storage
      = cexEmptyState.storage ∧
    attemptsOf (verifyPayment 7 oracleZero "NOPE" (some "0xh") cexEmptyState).2 "NOPE"
      = attemptsOf cexEmptyState "NOPE" + 1 :=
  verifyPayment_unknown_order 7 oracleZero "NOPE" (some "0xh") cexEmptyState rfl

/-! ## C7: amount tolerance -/

/-- C7 counterexample: address-balance verification of the sample payment
(expected amount `10 / 2000 = 0.005` ether) accepts a balance increase of
1 ether — 200 times the expected amount, far outside a 5% relative
tolerance.  The balance-delta path applies no amount tolerance at all. -/
theorem checkPaymentAddresses_no_tolerance_counterexample :
    (checkPaymentAddresses oracleOne samplePayment emptyStorage).1 = true ∧
    ¬ (|(1 : Rat) - 10 / 2000| / (10 / 2000) ≤ 5 / 100) := by
  refine ⟨by decide, ?_⟩
  have h : |(1 : Rat) - 10 / 2000| = 199 / 200 := by
    rw [abs_of_pos] <;> norm_num
  rw [h]
  norm_num

/-- C7 amended: address-balance-delta verification accepts exactly when the
observed current balance strictly exceeds the last recorded balance,
regardless of the payment amount; the 5% relative-tolerance rule instead
governs proof-based (transaction-hash) verification, which — for a
transaction to the payment's eth address — accepts exactly when the
transferred amount is within 5% relative tolerance of
`payment.amount / etherPrice`. -/
theorem paymentVerification_tolerance (oracle : ChainOracle)
    (p : PaymentDetails) (st : StorageState) (h : String) (tx : ChainTx)
    (dst : String)
    (hkv : ("balance_" ++ p.walletAddresses.eth) ∉ st.kvFail)
    (htx : oracle.getTransaction h = some tx)
    (hto : tx.toAddr = some dst)
    (hdst : toLower dst = toLower p.walletAddresses.eth) :
    (checkPaymentAddresses oracle p st).1
      = decide (oracle.getBalance p.walletAddresses.eth
          > parseBalance (jsGet st.kv ("balance_" ++ p.walletAddresses.eth))) ∧
    verifyEthereumTransaction oracle h p
      = decide (|tx.valueEther - p.amount / etherPrice| / (p.amount / etherPrice)
          ≤ 5 / 100) := by
  constructor
  · simp [checkPaymentAddresses, hkv]
  · simp [verifyEthereumTransaction, htx, hto, hdst]

/-- An oracle knowing one transaction of 1/200 ether to the sample wallet. -/
def oracleTx : ChainOracle := ⟨fun _ => some ⟨some "0xabcdef", 1 / 200⟩, fun _ => 0⟩

theorem paymentVerification_tolerance_witness :
    ((checkPaymentAddresses oracleTx samplePayment emptyStorage).1
      = decide (oracleTx.getBalance samplePayment.walletAddresses.eth
          > parseBalance (jsGet emptyStorage.kv
              ("balance_" ++ samplePayment.walletAddresses.eth))) ∧
     verifyEthereumTransaction oracleTx "0xh" samplePayment
      = decide (|((⟨some "0xabcdef", 1 / 200⟩ : ChainTx)).valueEther
            - samplePayment.amount / etherPrice|
          / (samplePayment.amount / etherPrice) ≤ 5 / 100)) :=
  paymentVerification_tolerance oracleTx
    samplePayment emptyStorage "0xh" ⟨some "0xabcdef", 1 / 200⟩ "0xabcdef"
    (by decide) rfl rfl (by decide)

/-! ## C8: status transition discipline -/

theorem jsGet_jsSet_cases {α : Type} (l : List (String × α)) (k o : String) (v : α) :
    jsGet (jsSet l k v) o = if k = o then some v else jsGet l o := by
  by_cases h : k = o
  · subst h; simp [jsGet_jsSet_self]
  · simp [h, jsGet_jsSet_ne l k o v h]

/-- Every `verifyPayment` call either leaves the payments map unchanged or
overwrites exactly one order with a copy whose status is `completed` or
`failed`. -/
theorem verifyPayment_payments_shape (now : Int) (oracle : ChainOracle)
    (oid : String) (tx : Option String) (s : PaymentState) :
    (verifyPayment now oracle oid tx s).2.payments = s.payments ∨
    ∃ (p : PaymentDetails) (st : PaymentStatus),
      (st = PaymentStatus.completed ∨ st = PaymentStatus.failed) ∧
      (verifyPayment now oracle oid tx s).2.payments
        = jsSet s.payments p.orderId { p with status := st } := by
  unfold verifyPayment
  cases hp : jsGet s.payments oid with
  | none => left; rfl
  | some p =>
      by_cases hexp : hasPaymentExpired now p
      · right
        exact ⟨p, PaymentStatus.failed, Or.inr rfl, by simp [hexp, handleExpiredPayment]⟩
      · simp only [hexp, Bool.false_eq_true, if_false]
        unfold retryVerification
        by_cases hge : (match jsGet s.failedPayments p.orderId with
            | some fp => fp.attempts
            | none => 0) ≥ maxAttempts
        · right
          exact ⟨p, PaymentStatus.failed, Or.inr rfl, by simp [hge, handleMaxRetriesExceeded]⟩
        · rcases hvo : verificationOutcome oracle p tx s.storage with ⟨b, st'⟩
          simp only [hge, if_false, hvo]
          cases b with
          | true =>
              right
              exact ⟨p, PaymentStatus.completed, Or.inl rfl, by simp [handleSuccessfulPayment]⟩
          | false => left; simp [handleFailedVerification]

/-- C8 amended: a payment's status never returns to `pending`: under
`verifyPayment` and `retryFailedPayment` a stored payment either keeps its
status or moves to a non-`pending` status (`completed` or `failed`) — so
`pending → completed`, `pending → failed`, `failed → completed` (via a
successful re-verification after `retryFailedPayment` resets the counter)
and `completed → failed` (expiry or exhausted attempts on a later call) are
the only possible changes; and `retryFailedPayment` without a prior failure
record is a no-op returning false, so it alone never changes any status. -/
theorem paymentStatus_never_reenters_pending :
    (∀ (now : Int) (oracle : ChainOracle) (oid : String) (tx : Option String)
        (s : PaymentState) (o : String) (p p' : PaymentDetails),
      jsGet s.payments o = some p →
      jsGet (verifyPayment now oracle oid tx s).2.payments o = some p' →
      (p'.status = p.status ∨ p'.status ≠ PaymentStatus.pending)) ∧
    (∀ (now : Int) (oracle : ChainOracle) (oid : String)
        (s : PaymentState) (o : String) (p p' : PaymentDetails),
      jsGet s.payments o = some p →
      jsGet (retryFailedPayment now oracle oid s).2.payments o = some p' →
      (p'.status = p.status ∨ p'.status ≠ PaymentStatus.pending)) ∧
    (∀ (now : Int) (oracle : ChainOracle) (oid : String) (s : PaymentState),
      jsGet s.failedPayments oid = none →
      retryFailedPayment now oracle oid s = (false, s)) := by
  have main : ∀ (now : Int) (oracle : ChainOracle) (oid : String) (tx : Option String)
      (s : PaymentState) (o : String) (p p' : PaymentDetails),
      jsGet s.payments o = some p →
      jsGet (verifyPayment now oracle oid tx s).2.payments o = some p' →
      (p'.status = p.status ∨ p'.status ≠ PaymentStatus.pending) := by
    intro now oracle oid tx s o p p' hbefore hafter
    rcases verifyPayment_payments_shape now oracle oid tx s with hsame | ⟨q, st, hst, heq⟩
    · rw [hsame, hbefore] at hafter
      left
      cases hafter
      rfl
    · rw [heq, jsGet_jsSet_cases] at hafter
      by_cases hk : q.orderId = o
      · rw [if_pos hk] at hafter
        cases hafter
        right
        rcases hst with h | h <;> simp [h]
      · rw [if_neg hk, hbefore] at hafter
        left
        cases hafter
        rfl
  refine ⟨main, ?_, ?_⟩
  · intro now oracle oid s o p p' hbefore hafter
    unfold retryFailedPayment at hafter
    cases hfp : jsGet s.failedPayments oid with
    | none =>
        rw [hfp] at hafter
        simp only at hafter
        rw [hbefore] at hafter
        left; cases hafter; rfl
    | some fp =>
        rw [hfp] at hafter
        exact main now oracle oid none
          { s with failedPayments := jsSet s.failedPayments oid { fp with attempts := 0 } }
          o p p' hbefore hafter
  · intro now oracle oid s hfp
    unfold retryFailedPayment
    rw [hfp]

/-- C8 counterexample: `verifyPayment` on a `completed` payment whose
creation time is more than 30 minutes in the past moves its status from
`completed` to `failed` — an operation that moves a status out of
`completed`, which the claim rules out. -/
theorem completed_payment_moves_to_failed_counterexample :
    (jsGet cexCompletedState.payments "PAY-1-user").map (fun p => p.status)
      = some PaymentStatus.completed ∧
    (jsGet (verifyPayment 2000000 oracleZero "PAY-1-user" none cexCompletedState).2.payments
        "PAY-1-user").map (fun p => p.status)
      = some PaymentStatus.failed := by
  constructor <;> rfl

theorem paymentStatus_never_reenters_pending_witness :
    ((({ samplePayment with status := PaymentStatus.failed } : PaymentDetails).status
        = (({ samplePayment with status := PaymentStatus.completed } : PaymentDetails)).status
      ∨ (({ samplePayment with status := PaymentStatus.failed } : PaymentDetails)).status
        ≠ PaymentStatus.pending)) ∧
    retryFailedPayment 0 oracleZero "X" cexEmptyState = (false, cexEmptyState) :=
  ⟨paymentStatus_never_reenters_pending.1 2000000 oracleZero "PAY-1-user" none
      cexCompletedState "PAY-1-user"
      { samplePayment with status := PaymentStatus.completed }
      { samplePayment with status := PaymentStatus.failed } rfl rfl,
   paymentStatus_never_reenters_pending.2.2 0 oracleZero "X" cexEmptyState rfl⟩

/-! ## QueueManager (`src/utils/queue.ts`) — C3 -/

/-- A queued task: its id, the behaviour of its operation (whether the n-th
execution, 0-based, succeeds), and its `retries` counter. -/
structure QTask where
  id : String
  behav : Nat → Bool
  retries : Nat

/-- The `QueueManager.processQueue` loop, producing the execution trace as a
list of `(taskId, executionIndex)` pairs.  The head task is executed; on
success it is dequeued; on failure with `retries < maxRetries` its counter
is incremented and it is retried in place; otherwise it is dropped (the
error is logged, not re-thrown) and the loop advances.  `fuel` bounds the
number of executions (the source loop terminates because `retries` is
bounded by `maxRetries`); the trace is complete whenever `fuel` is large
enough. -/
def processQueue (maxRetries : Nat) : Nat → List QTask → List (String × Nat)
  | 0, _ => []
  | _ + 1, [] => []
  | fuel + 1, t :: rest =>
      if t.behav t.retries then
        (t.id, t.retries) :: processQueue maxRetries fuel rest
      else if t.retries < maxRetries then
        (t.id, t.retries) :: processQueue maxRetries fuel ({ t with retries := t.retries + 1 } :: rest)
      else
        (t.id, t.retries) :: processQueue maxRetries fuel rest

/-- Task A whose operation always fails. -/
def taskA : QTask := ⟨"A", fun _ => false, 0⟩

/-- Task B whose operation always succeeds. -/
def taskB : QTask := ⟨"B", fun _ => true, 0⟩

/-- Task C whose operation always succeeds. -/
def taskC : QTask := ⟨"C", fun _ => true, 0⟩

/-- C3, evaluated at the claim's input: with `maxRetries = 3` and queue
`[A (always fails), B, C]`, the processing loop executes A four times
(the initial attempt plus 3 retries, at `retries` values 0, 1, 2 and 3),
then drops it and runs B and C once each in FIFO order: the claim's
"attempted exactly 3 times" does not match the code, which drops a task
only when a failure occurs with `retries < maxRetries` already false —
after the fourth execution — while its log line reports
"failed after 3 attempts". -/
theorem queue_always_failing_task_runs_four_times :
    processQueue 3 20 [taskA, taskB, taskC]
      = [("A", 0), ("A", 1), ("A", 2), ("A", 3), ("B", 0), ("C", 0)] ∧
    ((processQueue 3 20 [taskA, taskB, taskC]).filter (fun e => e.1 = "A")).length = 4 ∧
    ((processQueue 3 20 [taskA, taskB, taskC]).filter (fun e => e.1 = "B")).length = 1 ∧
    ((processQueue 3 20 [taskA, taskB, taskC]).filter (fun e => e.1 = "C")).length = 1 := by
  refine ⟨rfl, rfl, rfl, rfl⟩

/-! ## C10: updatePaymentStatus frame property -/

theorem updateFirstPayment_no_match (oid : String) (st : PaymentStatus) :
    ∀ (l : List (String × StoredRequest)),
    (∀ e ∈ l, e.2.payment.orderId ≠ oid) →
    updateFirstPayment oid st l = l := by
  intro l
  induction l with
  | nil => intro _; rfl
  | cons hd tl ih =>
      intro hno
      obtain ⟨k, r⟩ := hd
      have hne : r.payment.orderId ≠ oid := hno (k, r) (by simp)
      simp only [updateFirstPayment, if_neg hne]
      rw [ih (fun e he => hno e (by simp [he]))]

theorem updateFirstPayment_first_match (oid : String) (st : PaymentStatus) :
    ∀ (l1 : List (String × StoredRequest)) (k : String) (r : StoredRequest)
      (l2 : List (String × StoredRequest)),
    (∀ e ∈ l1, e.2.payment.orderId ≠ oid) →
    r.payment.orderId = oid →
    updateFirstPayment oid st (l1 ++ (k, r) :: l2)
      = l1 ++ (k, { r with payment := { r.payment with status := st } }) :: l2 := by
  intro l1
  induction l1 with
  | nil =>
      intro k r l2 _ hr
      simp [updateFirstPayment, hr]
  | cons hd tl ih =>
      intro k r l2 hno hr
      obtain ⟨k₀, r₀⟩ := hd
      have hne : r₀.payment.orderId ≠ oid := hno (k₀, r₀) (by simp)
      simp only [List.cons_append, updateFirstPayment, if_neg hne, List.append_eq]
      rw [ih k r l2 (fun e he => hno e (by simp [he])) hr]

/-- C10: `updatePaymentStatus(orderId, status)` mutates the payment status
of at most one stored request — the first (in insertion order) whose
`payment.orderId` matches — leaves every other stored request, every other
field of the matching request, and the rest of the storage state unchanged,
and completes without error as a no-op when no stored request matches. -/
theorem updatePaymentStatus_frame :
    (∀ (s : StorageState) (oid : String) (st : PaymentStatus),
      (∀ e ∈ s.requests, e.2.payment.orderId ≠ oid) →
        updatePaymentStatus oid st s = s) ∧
    (∀ (s : StorageState) (l1 l2 : List (String × StoredRequest)) (k : String)
        (r : StoredRequest) (oid : String) (st : PaymentStatus),
      s.requests = l1 ++ (k, r) :: l2 →
      (∀ e ∈ l1, e.2.payment.orderId ≠ oid) →
      r.payment.orderId = oid →
        (updatePaymentStatus oid st s).requests
          = l1 ++ (k, { r with payment := { r.payment with status := st } }) :: l2 ∧
        (updatePaymentStatus oid st s).kv = s.kv ∧
        (updatePaymentStatus oid st s).kvFail = s.kvFail) := by
  constructor
  · intro s oid st hno
    obtain ⟨reqs, kv, kf⟩ := s
    simp only [updatePaymentStatus]
    rw [updateFirstPayment_no_match oid st reqs hno]
  · intro s l1 l2 k r oid st hs hno hr
    refine ⟨?_, rfl, rfl⟩
    simp only [updatePaymentStatus, hs]
    exact updateFirstPayment_first_match oid st l1 k r l2 hno hr

/-- A stored request correlated to tweet `t1` whose payment is `ORD-1`. -/
def storedReqA : StoredRequest :=
  ⟨"t1", "user1", "make jazz", ⟨"ORD-1", PaymentStatus.pending, 10, sampleWallets⟩, 0⟩

/-- A stored request correlated to tweet `t2` whose payment is `ORD-2`. -/
def storedReqB : StoredRequest :=
  ⟨"t2", "user2", "make rock", ⟨"ORD-2", PaymentStatus.pending, 10, sampleWallets⟩, 5⟩

/-- A second stored request also carrying orderId `ORD-2`. -/
def storedReqB2 : StoredRequest :=
  ⟨"t3", "user3", "make pop", ⟨"ORD-2", PaymentStatus.pending, 10, sampleWallets⟩, 9⟩

theorem updatePaymentStatus_frame_witness :
    (updatePaymentStatus "ORD-9" PaymentStatus.failed
        ⟨[("t1", storedReqA)], [], []⟩
      = ⟨[("t1", storedReqA)], [], []⟩) ∧
    ((updatePaymentStatus "ORD-2" PaymentStatus.completed
        ⟨[("t1", storedReqA), ("t2", storedReqB), ("t3", storedReqB2)], [], []⟩).requests
      = [("t1", storedReqA)]
        ++ ("t2", { storedReqB with
              payment := { storedReqB.payment with status := PaymentStatus.completed } })
          :: [("t3", storedReqB2)] ∧
     (updatePaymentStatus "ORD-2" PaymentStatus.completed
        ⟨[("t1", storedReqA), ("t2", storedReqB), ("t3", storedReqB2)], [], []⟩).kv
      = [] ∧
     (updatePaymentStatus "ORD-2" PaymentStatus.completed
        ⟨[("t1", storedReqA), ("t2", storedReqB), ("t3", storedReqB2)], [], []⟩).kvFail
      = []) :=
  ⟨updatePaymentStatus_frame.1 ⟨[("t1", storedReqA)], [], []⟩ "ORD-9"
      PaymentStatus.failed (by decide),
   updatePaymentStatus_frame.2
      ⟨[("t1", storedReqA), ("t2", storedReqB), ("t3", storedReqB2)], [], []⟩
      [("t1", storedReqA)] [("t3", storedReqB2)] "t2" storedReqB "ORD-2"
      PaymentStatus.completed rfl (by decide) rfl⟩

/-! ## RecoverySystem (`src/utils/recovery.ts`) -/

/-- The fixed durable-storage key used for checkpoints. -/
def checkpointKey : String := "system_checkpoint"

/-- The `try` body of `RecoverySystem.saveCheckpoint`: build the
`SystemState` snapshot and persist its serialization under the checkpoint
key (the `setValue` of the durable capability may fail). -/
def saveCheckpointBody (now : Int) (s : StorageState) : Except String StorageState :=
  let state : SystemState :=
    ⟨now, getPendingRequests s, getPendingPayments s, ["twitter", "music", "payment"]⟩
  setValueE s checkpointKey (KVVal.ckpt state)

/-- `RecoverySystem.saveCheckpoint`: the catch block logs the failure and
swallows it, so the call always completes normally (state unchanged when the
durable write failed). -/
def saveCheckpoint (now : Int) (s : StorageState) : Except String StorageState :=
  match saveCheckpointBody now s with
  | Except.ok s' => Except.ok s'
  | Except.error _ => Except.ok s

/-- `RecoverySystem.recoverRequest`: re-insert one request; its catch block
swallows an individual failure (total here, as `storeRequest` is total). -/
def recoverRequest (r : StoredRequest) (s : StorageState) : StorageState :=
  storeRequest r s

/-- `RecoverySystem.recoverPayment`: replay one payment's status; its catch
block swallows an individual failure. -/
def recoverPayment (p : StoredPayment) (s : StorageState) : StorageState :=
  updatePaymentStatus p.orderId p.status s

/-- `RecoverySystem.recoverFromLastCheckpoint`: read the stored snapshot
(absence is a normal fresh start), parse it, and replay every pending
request and payment.  The function's catch block logs and RE-THROWS, so a
failing durable read or a snapshot that does not parse back into a
`SystemState` propagates as an error. -/
def recoverFromLastCheckpoint (s : StorageState) : Except String StorageState :=
  match getValueE s checkpointKey with
  | Except.error e => Except.error e
  | Except.ok none => Except.ok s
  | Except.ok (some (KVVal.ckpt state)) =>
      let s1 := state.pendingRequests.foldl (fun acc r => recoverRequest r acc) s
      let s2 := state.pendingPayments.foldl (fun acc p => recoverPayment p acc) s1
      Except.ok s2
  | Except.ok (some _) => Except.error "Failed to recover from checkpoint: invalid snapshot"

/-! ## C9: checkpoint error propagation -/

/-- C9 counterexample: with a corrupt snapshot stored under the checkpoint
key, `recoverFromLastCheckpoint` propagates an error to its caller instead
of recovering locally: its catch block re-throws after logging. -/
theorem recover_corrupt_snapshot_raises :
    recoverFromLastCheckpoint ⟨[], [(checkpointKey, KVVal.corrupt)], []⟩
      = Except.error "Failed to recover from checkpoint: invalid snapshot" := rfl

/-- C9 amended: `saveCheckpoint` never propagates an error (a failed durable
write is logged and swallowed, leaving the state unchanged), and
`recoverFromLastCheckpoint` treats an absent checkpoint as a normal fresh
start and swallows individual re-insertion failures — but it propagates an
error to its caller exactly when the durable read itself fails or the stored
snapshot is present and does not parse as a `SystemState` snapshot. -/
theorem checkpoint_error_policy :
    (∀ (now : Int) (s : StorageState), ∃ s', saveCheckpoint now s = Except.ok s') ∧
    (∀ (s : StorageState),
      checkpointKey ∉ s.kvFail → jsGet s.kv checkpointKey = none →
        recoverFromLastCheckpoint s = Except.ok s) ∧
    (∀ (s : StorageState) (st : SystemState),
      checkpointKey ∉ s.kvFail → jsGet s.kv checkpointKey = some (KVVal.ckpt st) →
        ∃ s', recoverFromLastCheckpoint s = Except.ok s') ∧
    (∀ (s : StorageState),
      checkpointKey ∈ s.kvFail →
        ∃ e, recoverFromLastCheckpoint s = Except.error e) ∧
    (∀ (s : StorageState) (v : KVVal),
      checkpointKey ∉ s.kvFail → jsGet s.kv checkpointKey = some v →
      (∀ st, v ≠ KVVal.ckpt st) →
        ∃ e, recoverFromLastCheckpoint s = Except.error e) := by
  refine ⟨?_, ?_, ?_, ?_, ?_⟩
  · intro now s
    unfold saveCheckpoint saveCheckpointBody setValueE
    by_cases h : checkpointKey ∈ s.kvFail
    · exact ⟨s, by simp [h]⟩
    · exact ⟨{ s with kv := jsSet s.kv checkpointKey (KVVal.ckpt
          ⟨now, getPendingRequests s, getPendingPayments s,
            ["twitter", "music", "payment"]⟩) }, by simp [h]⟩
  · intro s hnf hnone
    unfold recoverFromLastCheckpoint getValueE
    simp [hnf, hnone]
  · intro s st hnf hsome
    unfold recoverFromLastCheckpoint getValueE
    simp [hnf, hsome]
  · intro s hf
    unfold recoverFromLastCheckpoint getValueE
    simp [hf]
  · intro s v hnf hsome hnv
    unfold recoverFromLastCheckpoint getValueE
    simp only [if_neg hnf, hsome]
    cases v with
    | numStr q => exact ⟨_, rfl⟩
    | ckpt st => exact absurd rfl (hnv st)
    | corrupt => exact ⟨_, rfl⟩

theorem checkpoint_error_policy_witness :
    (∃ s', saveCheckpoint 5 ⟨[], [], [checkpointKey]⟩ = Except.ok s') ∧
    recoverFromLastCheckpoint ⟨[], [], []⟩ = Except.ok ⟨[], [], []⟩ ∧
    (∃ s', recoverFromLastCheckpoint
        ⟨[], [(checkpointKey, KVVal.ckpt ⟨0, [], [], []⟩)], []⟩ = Except.ok s') ∧
    (∃ e, recoverFromLastCheckpoint ⟨[], [], [checkpointKey]⟩ = Except.error e) ∧
    (∃ e, recoverFromLastCheckpoint ⟨[], [(checkpointKey, KVVal.numStr 3)], []⟩
        = Except.error e) :=
  ⟨checkpoint_error_policy.1 5 ⟨[], [], [checkpointKey]⟩,
   checkpoint_error_policy.2.1 ⟨[], [], []⟩ (by decide) rfl,
   checkpoint_error_policy.2.2.1 ⟨[], [(checkpointKey, KVVal.ckpt ⟨0, [], [], []⟩)], []⟩
      ⟨0, [], [], []⟩ (by decide) rfl,
   checkpoint_error_policy.2.2.2.1 ⟨[], [], [checkpointKey]⟩ (by decide),
   checkpoint_error_policy.2.2.2.2 ⟨[], [(checkpointKey, KVVal.numStr 3)], []⟩
      (KVVal.numStr 3) (by decide) rfl (fun st h => by cases h)⟩

/-! ## C5: checkpoint round-trip -/

theorem jsGet_append_of_none {α : Type} (l1 l2 : List (String × α)) (k : String)
    (h : jsGet l1 k = none) : jsGet (l1 ++ l2) k = jsGet l2 k := by
  induction l1 with
  | nil => rfl
  | cons hd tl ih =>
      obtain ⟨k₀, v₀⟩ := hd
      by_cases hk : k₀ = k
      · simp [jsGet, hk] at h
      · simp only [jsGet, hk, if_neg hk, List.cons_append] at h ⊢
        exact ih h

theorem jsSet_fresh {α : Type} (l : List (String × α)) (k : String) (v : α)
    (h : jsGet l k = none) : jsSet l k v = l ++ [(k, v)] := by
  induction l with
  | nil => rfl
  | cons hd tl ih =>
      obtain ⟨k₀, v₀⟩ := hd
      by_cases hk : k₀ = k
      · simp [jsGet, hk] at h
      · simp only [jsGet, hk, if_neg hk] at h
        simp only [jsSet, if_neg hk, List.cons_append]
        rw [ih h]

theorem recoverRequests_fold (rs : List StoredRequest) :
    ∀ (b : StorageState),
    (∀ r ∈ rs, jsGet b.requests r.tweetId = none) →
    (rs.map (fun r => r.tweetId)).Nodup →
    rs.foldl (fun acc r => recoverRequest r acc) b
      = ⟨b.requests ++ rs.map (fun r => (r.tweetId, r)), b.kv, b.kvFail⟩ := by
  induction rs with
  | nil =>
      intro b _ _
      obtain ⟨reqs, kv, kf⟩ := b
      simp
  | cons r rs ih =>
      intro b hfresh hnodup
      have hhd : jsGet b.requests r.tweetId = none := hfresh r (by simp)
      have hstep : recoverRequest r b
          = ⟨b.requests ++ [(r.tweetId, r)], b.kv, b.kvFail⟩ := by
        simp only [recoverRequest, storeRequest]
        rw [jsSet_fresh b.requests r.tweetId r hhd]
      have hnotin : r.tweetId ∉ rs.map (fun r' => r'.tweetId) := by
        simp only [List.map_cons, List.nodup_cons] at hnodup
        exact hnodup.1
      have hfresh' : ∀ r' ∈ rs,
          jsGet (b.requests ++ [(r.tweetId, r)]) r'.tweetId = none := by
        intro r' hr'
        rw [jsGet_append_of_none _ _ _ (hfresh r' (by simp [hr']))]
        have hne : r.tweetId ≠ r'.tweetId := by
          intro heq
          exact hnotin (heq ▸ List.mem_map_of_mem (fun x => x.tweetId) hr')
        simp [jsGet, hne]
      have hnodup' : (rs.map (fun r' => r'.tweetId)).Nodup := by
        simp only [List.map_cons, List.nodup_cons] at hnodup
        exact hnodup.2
      simp only [List.foldl_cons, hstep]
      rw [ih ⟨b.requests ++ [(r.tweetId, r)], b.kv, b.kvFail⟩ hfresh' hnodup']
      simp

theorem updateFirstPayment_all_status (oid : String) (st : PaymentStatus) :
    ∀ (l : List (String × StoredRequest)),
    (∀ e ∈ l, e.2.payment.status = st) →
    updateFirstPayment oid st l = l := by
  intro l
  induction l with
  | nil => intro _; rfl
  | cons hd tl ih =>
      intro h
      obtain ⟨k, r⟩ := hd
      have hst : r.payment.status = st := h (k, r) (by simp)
      by_cases hk : r.payment.orderId = oid
      · simp only [updateFirstPayment, if_pos hk]
        obtain ⟨tid, uid, pr, pay, ts⟩ := r
        obtain ⟨o, s₀, a, w⟩ := pay
        have hst' : s₀ = st := hst
        subst hst'
        rfl
      · simp only [updateFirstPayment, if_neg hk]
        rw [ih (fun e he => h e (by simp [he]))]

theorem recoverPayments_fold (ps : List StoredPayment) :
    ∀ (b : StorageState),
    (∀ e ∈ b.requests, e.2.payment.status = PaymentStatus.pending) →
    (∀ p ∈ ps, p.status = PaymentStatus.pending) →
    ps.foldl (fun acc p => recoverPayment p acc) b = b := by
  induction ps with
  | nil => intro b _ _; rfl
  | cons p ps ih =>
      intro b hreq hps
      have hp : p.status = PaymentStatus.pending := hps p (by simp)
      have hstep : recoverPayment p b = b := by
        simp only [recoverPayment, updatePaymentStatus, hp]
        rw [updateFirstPayment_all_status _ _ b.requests hreq]
      simp only [List.foldl_cons, hstep]
      exact ih b hreq (fun p' hp' => hps p' (by simp [hp']))

theorem map_filter_keyed (l : List (String × StoredRequest))
    (hkeys : ∀ e ∈ l, e.1 = e.2.tweetId) :
    ((l.map (fun e => e.2)).filter
        (fun r => r.payment.status = PaymentStatus.pending)).map
      (fun r => (r.tweetId, r))
      = l.filter (fun e => e.2.payment.status = PaymentStatus.pending) := by
  induction l with
  | nil => rfl
  | cons hd tl ih =>
      obtain ⟨k, r⟩ := hd
      have hk : k = r.tweetId := hkeys (k, r) (by simp)
      have ihtl := ih (fun e he => hkeys e (by simp [he]))
      by_cases hst : r.payment.status = PaymentStatus.pending
      · simp [List.filter_cons, hst, hk, ihtl]
      · simp [List.filter_cons, hst, ihtl]

/-- The round-trip of the claim: `saveCheckpoint` on a store, then
`recoverFromLastCheckpoint` into a fresh, empty request store that shares
the durable key-value layer. -/
def checkpointRoundTrip (now : Int) (s : StorageState) : Except String StorageState :=
  match saveCheckpoint now s with
  | Except.error e => Except.error e
  | Except.ok s1 => recoverFromLastCheckpoint ⟨[], s1.kv, s1.kvFail⟩

/-- C5: for every store state (whose requests map is keyed by the requests'
tweetIds, without duplicate keys, and whose durable layer accepts the
checkpoint write), `saveCheckpoint` followed by `recoverFromLastCheckpoint`
into a fresh, empty request store succeeds and reproduces exactly the
pending requests of the original store — the same correlation ids
(tweetIds), each with its full record and hence a payment status equal to
the one at checkpoint time.  The round-trip is the identity on pending
request/payment state. -/
theorem checkpoint_roundtrip (s : StorageState) (now : Int)
    (hnf : checkpointKey ∉ s.kvFail)
    (hkeys : ∀ e ∈ s.requests, e.1 = e.2.tweetId)
    (hnodup : (s.requests.map (fun e => e.1)).Nodup) :
    (checkpointRoundTrip now s).map (fun s2 => s2.requests)
      = Except.ok
          (s.requests.filter (fun e => e.2.payment.status = PaymentStatus.pending)) := by
  have hsave : saveCheckpoint now s
      = Except.ok { s with kv := jsSet s.kv checkpointKey (KVVal.ckpt
          ⟨now, getPendingRequests s, getPendingPayments s,
            ["twitter", "music", "payment"]⟩) } := by
    unfold saveCheckpoint saveCheckpointBody setValueE
    simp [hnf]
  have hget : getValueE
      (⟨[], jsSet s.kv checkpointKey (KVVal.ckpt
          ⟨now, getPendingRequests s, getPendingPayments s,
            ["twitter", "music", "payment"]⟩), s.kvFail⟩ : StorageState)
      checkpointKey
      = Except.ok (some (KVVal.ckpt
          ⟨now, getPendingRequests s, getPendingPayments s,
            ["twitter", "music", "payment"]⟩)) := by
    unfold getValueE
    simp [hnf, jsGet_jsSet_self]
  have hnodup' : ((getPendingRequests s).map (fun r => r.tweetId)).Nodup := by
    have hsub : List.Sublist ((getPendingRequests s).map (fun r => r.tweetId))
        ((s.requests.map (fun e => e.2)).map (fun r => r.tweetId)) :=
      List.Sublist.map _ (List.filter_sublist _)
    have hmm : (s.requests.map (fun e => e.2)).map (fun r => r.tweetId)
        = s.requests.map (fun e => e.1) := by
      rw [List.map_map]
      exact List.map_congr_left (fun e he => (hkeys e he).symm)
    exact ((hmm ▸ hsub).nodup hnodup)
  have hpend : ∀ r ∈ getPendingRequests s, r.payment.status = PaymentStatus.pending := by
    intro r hr
    have := (List.mem_filter.mp hr).2
    exact of_decide_eq_true this
  have hfold1 := recoverRequests_fold (getPendingRequests s)
    ⟨[], jsSet s.kv checkpointKey (KVVal.ckpt
        ⟨now, getPendingRequests s, getPendingPayments s,
          ["twitter", "music", "payment"]⟩), s.kvFail⟩
    (fun r _ => rfl) hnodup'
  have hfold2 := recoverPayments_fold (getPendingPayments s)
    ⟨(getPendingRequests s).map (fun r => (r.tweetId, r)),
      jsSet s.kv checkpointKey (KVVal.ckpt
        ⟨now, getPendingRequests s, getPendingPayments s,
          ["twitter", "music", "payment"]⟩), s.kvFail⟩
    (by
      intro e he
      simp only [List.mem_map] at he
      obtain ⟨r, hr, rfl⟩ := he
      exact hpend r hr)
    (by
      intro p hp
      simp only [getPendingPayments, List.mem_map] at hp
      obtain ⟨r, hr, rfl⟩ := hp
      exact hpend r hr)
  unfold checkpointRoundTrip
  rw [hsave]
  dsimp only
  unfold recoverFromLastCheckpoint
  rw [hget]
  dsimp only
  simp only [List.nil_append] at hfold1
  rw [hfold1, hfold2]
  simp only [Except.map, getPendingRequests]
  rw [map_filter_keyed s.requests hkeys]

/-- A store mixing one pending and one completed request. -/
def mixedStore : StorageState :=
  ⟨[("t1", storedReqA),
    ("t2", { storedReqB with
        payment := { storedReqB.payment with status := PaymentStatus.completed } })],
   [], []⟩

theorem checkpoint_roundtrip_witness :
    (checkpointRoundTrip 7 mixedStore).map (fun s2 => s2.requests)
      = Except.ok
          (mixedStore.requests.filter
            (fun e => e.2.payment.status = PaymentStatus.pending)) :=
  checkpoint_roundtrip mixedStore 7 (by decide) (by decide) (by decide)
